import Mathlib

set_option maxHeartbeats 1000000

/-! Shallow embedding of the generation-and-verification pipeline
(`src/orchestrator/generator.py`, `src/orchestrator/verification_agent.py`,
`src/orchestrator/workflow_orchestrator.py`).  Python dict/list/str/bool/None
values are embedded as `Json`; Python strings handled character-wise are
embedded as `List Char`; code that can raise is embedded in `Except String`. -/

/-- Embedding of the Python values (dict / list / str / bool / None) that flow
through the pipeline envelopes. -/
inductive Json where
  | null : Json
  | bool : Bool → Json
  | str : String → Json
  | arr : List Json → Json
  | obj : List (String × Json) → Json

/-- First-match association lookup in a dict's field list. -/
def jassoc : List (String × Json) → String → Option Json
  | [], _ => none
  | (k, v) :: rest, key => if k = key then some v else jassoc rest key

/-- Key lookup on a `Json` value: only objects have keys. -/
def Json.lookup : Json → String → Option Json
  | .obj fields, key => jassoc fields key
  | _, _ => none

/-- Whether the top-level dict has the given key. -/
def Json.hasKey (j : Json) (key : String) : Bool := (j.lookup key).isSome

/-- Python truthiness (`if x:`) of an embedded value. -/
def Json.truthy : Json → Bool
  | .null => false
  | .bool b => b
  | .str s => !(s == "")
  | .arr l => !l.isEmpty
  | .obj l => !l.isEmpty

/-- Chained key lookup,
embedding `d["k1"]["k2"]...` navigation used in statements. -/
def jpath (j : Json) : List String → Option Json
  | [] => some j
  | k :: ks =>
    match j.lookup k with
    | some v => jpath v ks
    | none => none

/-- Embedding of Python `d.get(key, default)`: raises `AttributeError` when the
receiver is not a dict, otherwise total. -/
def pyGet (j : Json) (key : String) (dflt : Json) : Except String Json :=
  match j with
  | .obj fields => .ok ((jassoc fields key).getD dflt)
  | _ => .error "AttributeError: object has no attribute get"

/-- Embedding of Python `d[key]`: `KeyError` on a missing key, `TypeError` on a
non-dict receiver. -/
def pySubscript (j : Json) (key : String) : Except String Json :=
  match j with
  | .obj fields =>
    match jassoc fields key with
    | some v => .ok v
    | none => .error ("KeyError: " ++ key)
  | _ => .error "TypeError: object is not subscriptable"

/-- Characters removed by Python `str.strip()`. -/
def isPySpace (c : Char) : Bool :=
  c == ' ' || c == '\t' || c == '\n' || c == '\r' || c == Char.ofNat 11 || c == Char.ofNat 12

/-- Embedding of Python `str.strip()` on a character list. -/
def pyStrip (l : List Char) : List Char :=
  ((l.dropWhile isPySpace).reverse.dropWhile isPySpace).reverse

/-- Embedding of Python `str.find(pat)`: index of the first occurrence of
`pat`, `none` standing for Python's `-1`. -/
def findSub : List Char → List Char → Option Nat
  | [], pat => if pat.isPrefixOf ([] : List Char) then some 0 else none
  | c :: t, pat =>
    if pat.isPrefixOf (c :: t) then some 0
    else (findSub t pat).map (· + 1)

/-- Whether `pat` occurs anywhere in `hay` (Python `pat in hay`). -/
def containsSub (hay pat : List Char) : Bool := (findSub hay pat).isSome

/-- Embedding of the Python slice `l[a:b]` for nonnegative bounds. -/
def sliceList (l : List Char) (a b : Nat) : List Char := (l.take b).drop a

/-- Fuel-driven worker for `pyReplace`; fuel `≥ length` of the input makes it
exact (each step consumes at least one character and one unit of fuel). -/
def replaceGo (old new : List Char) : Nat → List Char → List Char
  | _, [] => []
  | 0, s => s
  | fuel + 1, c :: t =>
    if old.isPrefixOf (c :: t) ∧ old ≠ [] then
      new ++ replaceGo old new fuel ((c :: t).drop old.length)
    else
      c :: replaceGo old new fuel t

/-- Embedding of Python `s.replace(old, new)` for non-empty `old`:
left-to-right, non-overlapping replacement of every occurrence. -/
def pyReplace (old new s : List Char) : List Char := replaceGo old new s.length s

/-- Sentinel markers of `parse_generated_code` (generator.py lines 29-46). -/
def actStartM : List Char := "### ACTIVITIES_START ###".toList

def actEndM : List Char := "### ACTIVITIES_END ###".toList

def wfStartM : List Char := "### WORKFLOW_START ###".toList

def wfEndM : List Char := "### WORKFLOW_END ###".toList

def fencePy : List Char := "```python".toList

def fenceTicks : List Char := "```".toList

def fenceJson : List Char := "```json".toList

/-- One marker pair of `parse_generated_code`: find both markers, slice the
text strictly between them, strip; either marker missing yields `""`
(generator.py lines 29-46). -/
def extractPair (code startM endM : List Char) : List Char :=
  match findSub code startM, findSub code endM with
  | some s, some e => pyStrip (sliceList code (s + startM.length) e)
  | _, _ => []

/-- Markdown-fence cleanup applied to each extracted artifact
(generator.py lines 49-50): delete every "```python", then every "```",
then strip. -/
def cleanArtifact (l : List Char) : List Char :=
  pyStrip (pyReplace fenceTicks [] (pyReplace fencePy [] l))

/-- Embedding of `parse_generated_code` (generator.py lines 20-55).  The
Python body is wrapped in a `try` but every operation it performs is total,
so the model is a total function. -/
def parse_generated_code (code : List Char) : List Char × List Char :=
  (cleanArtifact (extractPair code actStartM actEndM),
   cleanArtifact (extractPair code wfStartM wfEndM))

/-- Environment of `save_generated_files` (generator.py lines 57-103): which
filesystem operations raise.  `setupErr` models an exception in the outer
block before the per-file writes (mkdir / `__init__.py`); `actErr` / `wfErr`
model an exception in the individual guarded file writes. -/
structure SaveEnv where
  setupErr : Option String
  actErr : Option String
  wfErr : Option String

/-- The dict returned by `save_generated_files` (keys success / files_saved /
message, always present in the source, so embedded as a record). -/
structure SaveResult where
  success : Bool
  files_saved : List String
  message : String

/-- Modeled path strings of the two artifact files. -/
def activitiesPath : String := "generated/activities.py"

/-- Modeled path string of the workflow artifact file. -/
def workflowPath : String := "generated/workflow.py"

/-- Embedding of `save_generated_files` (generator.py lines 57-103): each file
write is guarded separately; overall success iff at least one file saved. -/
def save_generated_files (env : SaveEnv) : SaveResult :=
  match env.setupErr with
  | some e =>
    { success := false, files_saved := [], message := "Error saving files: " ++ e }
  | none =>
    let saved₁ : List String := match env.actErr with | none => [activitiesPath] | some _ => []
    let saved₂ : List String := match env.wfErr with | none => [workflowPath] | some _ => []
    let saved := saved₁ ++ saved₂
    { success := decide (0 < saved.length),
      files_saved := saved,
      message :=
        if saved.isEmpty then "Failed to save any files"
        else "Saved " ++ toString saved.length ++ " files" }

/-- Embedding of `None`-or-string arguments of `_create_response`. -/
def jsonOfStrOpt : Option String → Json
  | none => Json.null
  | some s => Json.str s

/-- Embedding of `_create_response` (generator.py lines 105-133).  Note the
built dict has exactly the four top-level keys status, message, error, data
(in that order); there is no `error_details` key. -/
def _create_response (status : String) (error : Option String)
    (files_generated : List (String × String)) (instruction : String)
    (message : Option String) (details : Json) : Json :=
  Json.obj
    [("status", Json.str status),
     ("message", jsonOfStrOpt message),
     ("error", jsonOfStrOpt error),
     ("data", Json.obj
       [("instruction", Json.str instruction),
        ("generated_files", Json.obj (files_generated.map fun p => (p.1, Json.str p.2))),
        ("details", if details.truthy then details else Json.obj [])])]

/-- Environment of `generate_temporal_code` (generator.py lines 136-268):
outcomes of the external calls it guards.  `toolsRes` is the MCP-tools fetch
(caught, only feeds the prompt text); `promptRes` is the template load plus
`format` (one guarded block, lines 162-177); `llmRes` is the gateway call
(lines 180-191); `saveEnv` drives the persistence step. -/
structure GenEnv where
  toolsRes : Except String String
  promptRes : Except String String
  llmRes : Except String String
  saveEnv : SaveEnv

/-- Embedding of `generate_temporal_code` (generator.py lines 136-268). -/
def generate_temporal_code (env : GenEnv) (user_instruction : String) : Json :=
  match env.promptRes with
  | .error e =>
    _create_response "failed" (some ("Failed to build prompt: " ++ e)) [] user_instruction
      (some "Prompt building failed")
      (Json.obj [("stage", Json.str "prompt_building"), ("exception", Json.str e)])
  | .ok _prompt =>
    match env.llmRes with
    | .error e =>
      _create_response "failed" (some ("Failed to generate code from LLM: " ++ e)) []
        user_instruction (some "LLM code generation failed")
        (Json.obj [("stage", Json.str "code_generation"), ("exception", Json.str e)])
    | .ok generated_code =>
      let parsed := parse_generated_code generated_code.toList
      let activities := parsed.1.asString
      let workflow := parsed.2.asString
      if activities = "" ∨ workflow = "" then
        _create_response "failed"
          (some "Could not generate valid Temporal code from the prompt") []
          user_instruction
          (some "The prompt does not seem to describe a distributed workflow task. Temporal workflows are for long-running, distributed business processes.")
          (Json.obj
            [("stage", Json.str "code_parsing"),
             ("reason", Json.str "Generated code was empty. Hint: Use prompts like \x27Create a workflow that processes payments with retry logic\x27 instead of \x27Download an app\x27.")])
      else
        let save_result := save_generated_files env.saveEnv
        if save_result.success then
          _create_response "success" none
            [("activities.py", activities), ("workflow.py", workflow)]
            user_instruction (some "Workflow generated successfully")
            (Json.obj [("files_saved", Json.arr (save_result.files_saved.map Json.str))])
        else
          _create_response "failed" (some save_result.message) [] user_instruction
            (some "Failed to save generated files")
            (Json.obj [("stage", Json.str "file_saving"),
                       ("reason", Json.str save_result.message)])

/-- Environment of `verify_workflow_code` (verification_agent.py): outcome of
the gateway call, and of `json.loads` on the fence-stripped reply
(`json.loads` is treated as an opaque parser that yields a value or raises). -/
structure VerifEnv where
  llmRes : Except String String
  jsonParse : String → Except String Json

/-- Fence cleanup applied to the verification reply before parsing
(verification_agent.py line 65). -/
def stripVerifFences (s : String) : String :=
  (pyStrip (pyReplace fenceTicks [] (pyReplace fenceJson [] s.toList))).asString

/-- The raw structured verdict of the verification reply: gateway call, fence
cleanup, then `json.loads`; any raising step short-circuits. -/
def verifRawVerdict (env : VerifEnv) : Except String Json := do
  let response ← env.llmRes
  env.jsonParse (stripVerifFences response)

/-- The dict built by the `except` branch of `verify_workflow_code`
(verification_agent.py lines 106-121). -/
def verifExceptResult (e : String) : Json :=
  Json.obj
    [("status", Json.str "failed"),
     ("message", Json.str "Code verification failed"),
     ("data", Json.obj
       [("verification_status", Json.str "FAILED"),
        ("is_valid", Json.bool false),
        ("has_errors", Json.bool true),
        ("errors", Json.arr [Json.str ("Verification error: " ++ e)]),
        ("warnings", Json.arr []),
        ("summary", Json.str ("Verification failed due to: " ++ e))]),
     ("error", Json.str e),
     ("error_details", Json.obj [("errors", Json.arr [Json.str ("Verification error: " ++ e)])])]

/-- Embedding of `verify_workflow_code` (verification_agent.py lines 14-121).
The whole body is one `try`: gateway error, parse error, or a reply that is
not a dict (so `.get` raises) all fall to the `except` branch.  The two code
arguments only feed the review prompt, which the gateway environment
abstracts. -/
def verify_workflow_code (env : VerifEnv) (activities_code workflow_code : String) : Json :=
  match (do
    let result ← verifRawVerdict env
    let is_valid ← pyGet result "is_valid" (Json.bool true)
    let has_errors ← pyGet result "has_errors" (Json.bool false)
    let errors ← pyGet result "errors" (Json.arr [])
    let warnings ← pyGet result "warnings" (Json.arr [])
    let summary ← pyGet result "summary" (Json.str "Verification completed")
    pure (Json.obj
      [("status", Json.str (if is_valid.truthy then "success" else "failed")),
       ("message", Json.str (if is_valid.truthy then "Code verified successfully"
                             else "Code verification found issues")),
       ("data", Json.obj
         [("verification_status", Json.str (if is_valid.truthy then "PASSED" else "FAILED")),
          ("is_valid", is_valid),
          ("has_errors", has_errors),
          ("errors", errors),
          ("warnings", warnings),
          ("summary", summary)]),
       ("error", if is_valid.truthy then Json.null else Json.str "Verification found issues"),
       ("error_details", if is_valid.truthy then Json.null
                         else Json.obj [("errors", errors), ("warnings", warnings)])])
    : Except String Json) with
  | .ok j => j
  | .error e => verifExceptResult e

/-- Python `== "failed"` on an arbitrary dict value. -/
def isFailedStr : Json → Bool
  | .str s => s == "failed"
  | _ => false

/-- The hand-built envelope of the coordinator's defensive empty-artifact
guard (workflow_orchestrator.py lines 46-52). -/
def emptyFilesEnvelope : Json :=
  Json.obj
    [("status", Json.str "failed"),
     ("message", Json.str "Code generation produced empty files"),
     ("data", Json.obj []),
     ("error", Json.str "Empty files"),
     ("error_details", Json.null)]

/-- Embedding of `code_generation_workflow` (workflow_orchestrator.py lines
15-86), parameterised by the behaviour of the two stages it orchestrates.
The function body has no `try`/`except`, so any exception raised by a stage
call or by the coordinator's own subscript/attribute accesses propagates to
the caller (modelled by the `Except` monad). -/
def code_generation_workflow (user_prompt : String)
    (gen : Except String Json)
    (verify : Json → Json → Except String Json) : Except String Json := do
  let generation_result ← gen
  let st ← pySubscript generation_result "status"
  if isFailedStr st then
    pure generation_result
  else do
    let d ← pyGet generation_result "data" (Json.obj [])
    let gf ← pyGet d "generated_files" (Json.obj [])
    let activities_code ← pyGet gf "activities.py" (Json.str "")
    let workflow_code ← pyGet gf "workflow.py" (Json.str "")
    if !activities_code.truthy || !workflow_code.truthy then
      pure emptyFilesEnvelope
    else do
      let verification_result ← verify activities_code workflow_code
      let vd ← pyGet verification_result "data" (Json.obj [])
      let is_valid ← pyGet vd "is_valid" (Json.bool false)
      let vd₂ ← pyGet verification_result "data" (Json.obj [])
      let verification_status ← pyGet vd₂ "verification_status" Json.null
      let errors ← pyGet vd₂ "errors" (Json.arr [])
      let warnings ← pyGet vd₂ "warnings" (Json.arr [])
      pure (Json.obj
        [("status", Json.str (if is_valid.truthy then "success" else "warning")),
         ("message", Json.str (if is_valid.truthy then "Code generated and verified"
                               else "Code generated with issues")),
         ("data", Json.obj
           [("prompt", Json.str user_prompt),
            ("generated_files", Json.obj
              [("activities.py", activities_code), ("workflow.py", workflow_code)]),
            ("verification_status", verification_status),
            ("errors", errors),
            ("warnings", warnings)]),
         ("error", if is_valid.truthy then Json.null else Json.str "Code has issues"),
         ("error_details", if is_valid.truthy then Json.null
                           else Json.obj [("errors", errors)])])

/-- String payload of a value, used where the coordinator passes the artifact
contents (always strings in practice) on to the verification stage. -/
def jstrD : Json → String
  | .str s => s
  | _ => ""

/-- The full pipeline with the repository's actual stages plugged into the
coordinator: `run_pipeline` of the spec. -/
def run_pipeline (genv : GenEnv) (venv : VerifEnv) (instruction : String) :
    Except String Json :=
  code_generation_workflow instruction
    (Except.ok (generate_temporal_code genv instruction))
    (fun a w => Except.ok (verify_workflow_code venv (jstrD a) (jstrD w)))

def mergeData (vr : Json) (k : String) (d : Json) : Json :=
  (((vr.lookup "data").getD (Json.obj [])).lookup k).getD d

def mergedEnvelope (prompt : String) (act wf vr : Json) : Json :=
  Json.obj
    [("status", Json.str (if (mergeData vr "is_valid" (Json.bool false)).truthy then "success" else "warning")),
     ("message", Json.str (if (mergeData vr "is_valid" (Json.bool false)).truthy then "Code generated and verified" else "Code generated with issues")),
     ("data", Json.obj
       [("prompt", Json.str prompt),
        ("generated_files", Json.obj [("activities.py", act), ("workflow.py", wf)]),
        ("verification_status", mergeData vr "verification_status" Json.null),
        ("errors", mergeData vr "errors" (Json.arr [])),
        ("warnings", mergeData vr "warnings" (Json.arr []))]),
     ("error", if (mergeData vr "is_valid" (Json.bool false)).truthy then Json.null else Json.str "Code has issues"),
     ("error_details", if (mergeData vr "is_valid" (Json.bool false)).truthy then Json.null
                       else Json.obj [("errors", mergeData vr "errors" (Json.arr []))])]

def genvFailW : GenEnv := ⟨Except.ok "", Except.error "boom", Except.ok "", ⟨none, none, none⟩⟩

def llmGoodOut : String :=
  "### ACTIVITIES_START ###\nact\n### ACTIVITIES_END ###\n### WORKFLOW_START ###\nwf\n### WORKFLOW_END ###"

def genvOkW : GenEnv := ⟨Except.ok "", Except.ok "tmpl", Except.ok llmGoodOut, ⟨none, none, none⟩⟩

def venvOkW : VerifEnv :=
  ⟨Except.ok "reply", fun _ => Except.ok (Json.obj
    [("has_errors", Json.bool false), ("errors", Json.arr []), ("warnings", Json.arr []),
     ("is_valid", Json.bool true), ("summary", Json.str "ok")])⟩

/-- The dict built by `verify_workflow_code` when the reply parses to a dict
(verification_agent.py lines 68-104). -/
def verifParsedResult (fs : List (String × Json)) : Json :=
  let is_valid := (jassoc fs "is_valid").getD (Json.bool true)
  Json.obj
    [("status", Json.str (if is_valid.truthy then "success" else "failed")),
     ("message", Json.str (if is_valid.truthy then "Code verified successfully"
                           else "Code verification found issues")),
     ("data", Json.obj
       [("verification_status", Json.str (if is_valid.truthy then "PASSED" else "FAILED")),
        ("is_valid", is_valid),
        ("has_errors", (jassoc fs "has_errors").getD (Json.bool false)),
        ("errors", (jassoc fs "errors").getD (Json.arr [])),
        ("warnings", (jassoc fs "warnings").getD (Json.arr [])),
        ("summary", (jassoc fs "summary").getD (Json.str "Verification completed"))]),
     ("error", if is_valid.truthy then Json.null else Json.str "Verification found issues"),
     ("error_details", if is_valid.truthy then Json.null
                       else Json.obj [("errors", (jassoc fs "errors").getD (Json.arr [])),
                                      ("warnings", (jassoc fs "warnings").getD (Json.arr []))])]

def venvInconsW : VerifEnv :=
  ⟨Except.ok "r", fun _ => Except.ok (Json.obj
    [("is_valid", Json.bool true), ("errors", Json.arr [Json.str "e1"])])⟩

def genvPartialW : GenEnv :=
  ⟨Except.ok "", Except.ok "tmpl", Except.ok llmGoodOut, ⟨none, none, some "disk full"⟩⟩

def backtick : Char := Char.ofNat 96

/-- Canonical marked text: both marker pairs present, enclosing `A` and `W`. -/
def mkMarked (A W : List Char) : List Char :=
  actStartM ++ A ++ actEndM ++ wfStartM ++ W ++ wfEndM

theorem cr_lookup_status (st : String) (err : Option String) (fg : List (String × String))
    (inst : String) (msg : Option String) (det : Json) :
    (_create_response st err fg inst msg det).lookup "status" = some (Json.str st) := by
  simp [_create_response, Json.lookup, jassoc]

theorem cr_hasKey_error_details (st : String) (err : Option String) (fg : List (String × String))
    (inst : String) (msg : Option String) (det : Json) :
    (_create_response st err fg inst msg det).hasKey "error_details" = false := by
  simp [_create_response, Json.hasKey, Json.lookup, jassoc]

theorem gen_eq_create (env : GenEnv) (inst : String) :
    ∃ st err fg msg det,
      generate_temporal_code env inst = _create_response st err fg inst msg det ∧
        (st = "failed" ∨ st = "success") := by
  obtain ⟨t, p, l, s⟩ := env
  rcases p with e | pr
  · exact ⟨_, _, _, _, _, rfl, Or.inl rfl⟩
  · rcases l with e | out
    · exact ⟨_, _, _, _, _, rfl, Or.inl rfl⟩
    · simp only [generate_temporal_code]
      split
      · exact ⟨_, _, _, _, _, rfl, Or.inl rfl⟩
      · split
        · exact ⟨_, _, _, _, _, rfl, Or.inr rfl⟩
        · exact ⟨_, _, _, _, _, rfl, Or.inl rfl⟩

theorem cr_lookup_data (st : String) (err : Option String) (fg : List (String × String))
    (inst : String) (msg : Option String) (det : Json) :
    (_create_response st err fg inst msg det).lookup "data" =
      some (Json.obj
        [("instruction", Json.str inst),
         ("generated_files", Json.obj (fg.map fun p => (p.1, Json.str p.2))),
         ("details", if det.truthy then det else Json.obj [])]) := by
  simp [_create_response, Json.lookup, jassoc]

theorem gen_success_shape (env : GenEnv) (inst : String)
    (h : (generate_temporal_code env inst).lookup "status" = some (Json.str "success")) :
    ∃ a w det, a ≠ "" ∧ w ≠ "" ∧
      (generate_temporal_code env inst).lookup "data" =
        some (Json.obj
          [("instruction", Json.str inst),
           ("generated_files",
             Json.obj [("activities.py", Json.str a), ("workflow.py", Json.str w)]),
           ("details", det)]) := by
  obtain ⟨t, p, l, s⟩ := env
  rcases p with e | pr
  · simp [generate_temporal_code, cr_lookup_status] at h
  · rcases l with e | out
    · simp [generate_temporal_code, cr_lookup_status] at h
    · simp only [generate_temporal_code] at h ⊢
      split at h
      · simp [cr_lookup_status] at h
      · split at h
        · rename_i hne hsave
          have hne2 := hne
          push_neg at hne2
          rw [if_neg hne, if_pos hsave]
          exact ⟨_, _, _, hne2.1, hne2.2, rfl⟩
        · simp [cr_lookup_status] at h

theorem verify_shape (venv : VerifEnv) (a w : String) :
    ∃ st msg d err ed,
      verify_workflow_code venv a w =
        Json.obj [("status", Json.str st), ("message", Json.str msg),
                  ("data", Json.obj d), ("error", err), ("error_details", ed)] ∧
      ∃ iv, jassoc d "is_valid" = some iv := by
  unfold verify_workflow_code
  rcases h : verifRawVerdict venv with e | v
  · simp only [h, Except.bind, bind]
    exact ⟨_, _, _, _, _, rfl, _, rfl⟩
  · rcases v with _ | b | s | l | fs
    all_goals simp only [h, Except.bind, bind, pyGet]
    all_goals exact ⟨_, _, _, _, _, rfl, _, rfl⟩

theorem pyGet_of_lookup {j v : Json} {k : String} (d : Json) (h : j.lookup k = some v) :
    pyGet j k d = .ok v := by
  cases j <;> simp [Json.lookup, pyGet] at h ⊢ <;> simp [h]

theorem pySubscript_of_lookup {j v : Json} {k : String} (h : j.lookup k = some v) :
    pySubscript j k = .ok v := by
  cases j <;> simp [Json.lookup, pySubscript] at h ⊢ <;> simp [h]

theorem cr_subscript_status (st : String) (err : Option String) (fg : List (String × String))
    (inst : String) (msg : Option String) (det : Json) :
    pySubscript (_create_response st err fg inst msg det) "status" = .ok (Json.str st) :=
  pySubscript_of_lookup (cr_lookup_status st err fg inst msg det)

theorem pipeline_short_circuit (genv : GenEnv) (venv : VerifEnv) (inst : String)
    (h : (generate_temporal_code genv inst).lookup "status" = some (Json.str "failed")) :
    run_pipeline genv venv inst = Except.ok (generate_temporal_code genv inst) := by
  have hsub := pySubscript_of_lookup h
  simp [run_pipeline, code_generation_workflow, hsub, isFailedStr, Except.bind, bind, pure, Except.pure]

theorem pyGet_obj (fs : List (String × Json)) (k : String) (d : Json) :
    pyGet (Json.obj fs) k d = .ok ((jassoc fs k).getD d) := rfl

theorem Json.lookup_obj (fs : List (String × Json)) (k : String) :
    (Json.obj fs).lookup k = jassoc fs k := rfl

theorem coord_merge {dfields vd : List (String × Json)} {vr : Json} (p : String) (g : Json)
    (vf : Json → Json → Except String Json) (a w : String)
    (ha : a ≠ "") (hw : w ≠ "")
    (hsub : pySubscript g "status" = .ok (Json.str "success"))
    (hdata : g.lookup "data" = some (Json.obj dfields))
    (hgf : jassoc dfields "generated_files" =
      some (Json.obj [("activities.py", Json.str a), ("workflow.py", Json.str w)]))
    (hvf : vf (Json.str a) (Json.str w) = .ok vr)
    (hvd : vr.lookup "data" = some (Json.obj vd)) :
    code_generation_workflow p (.ok g) vf = .ok (mergedEnvelope p (Json.str a) (Json.str w) vr) := by
  have h1 : pyGet g "data" (Json.obj []) = .ok (Json.obj dfields) := pyGet_of_lookup _ hdata
  have h2 : pyGet (Json.obj dfields) "generated_files" (Json.obj []) =
      .ok (Json.obj [("activities.py", Json.str a), ("workflow.py", Json.str w)]) := by
    simp [pyGet, hgf]
  have h6 : pyGet vr "data" (Json.obj []) = .ok (Json.obj vd) := pyGet_of_lookup _ hvd
  have ta : (Json.str a).truthy = true := by simp [Json.truthy, ha]
  have tw : (Json.str w).truthy = true := by simp [Json.truthy, hw]
  simp only [code_generation_workflow, bind, Except.bind, pure, Except.pure, hsub, isFailedStr,
    h1, h2, h6, hvf, pyGet_obj, jassoc, ta, tw]
  simp [mergedEnvelope, mergeData, hvd, Json.lookup_obj, ta, tw, hvf, h6, pyGet_obj, jassoc]

theorem pipeline_merge (genv : GenEnv) (venv : VerifEnv) (inst : String)
    (h : (generate_temporal_code genv inst).lookup "status" = some (Json.str "success")) :
    ∃ a w, a ≠ "" ∧ w ≠ "" ∧
      run_pipeline genv venv inst =
        Except.ok (mergedEnvelope inst (Json.str a) (Json.str w)
          (verify_workflow_code venv a w)) := by
  obtain ⟨a, w, det, ha, hw, hdata⟩ := gen_success_shape genv inst h
  refine ⟨a, w, ha, hw, ?_⟩
  have hsub := pySubscript_of_lookup h
  have hget := pyGet_of_lookup (Json.obj []) hdata
  obtain ⟨vst, vmsg, vd, verr, ved, hv, iv, hiv⟩ := verify_shape venv a w
  have hvd : (verify_workflow_code venv a w).lookup "data" = some (Json.obj vd) := by
    rw [hv]; simp [Json.lookup, jassoc]
  exact coord_merge inst _ _ a w ha hw hsub hdata (by simp [jassoc]) rfl hvd

theorem coord_short (p : String) (g : Json) (vf : Json → Json → Except String Json)
    (hsub : pySubscript g "status" = .ok (Json.str "failed")) :
    code_generation_workflow p (.ok g) vf = .ok g := by
  simp [code_generation_workflow, hsub, bind, Except.bind, pure, Except.pure, isFailedStr]

/-- C3: when the Generation Stage result has status failed, the coordinator
returns that result unchanged for every possible verification stage (so the
Verification Stage is never invoked), and its data carries no verdict-derived
fields. -/
theorem c3_short_circuit (genv : GenEnv) (inst : String)
    (h : (generate_temporal_code genv inst).lookup "status" = some (Json.str "failed")) :
    (∀ vf : Json → Json → Except String Json,
       code_generation_workflow inst (.ok (generate_temporal_code genv inst)) vf =
         .ok (generate_temporal_code genv inst)) ∧
    jpath (generate_temporal_code genv inst) ["data", "verification_status"] = none ∧
    jpath (generate_temporal_code genv inst) ["data", "errors"] = none ∧
    jpath (generate_temporal_code genv inst) ["data", "warnings"] = none := by
  obtain ⟨st, err, fg, msg, det, hg, hst⟩ := gen_eq_create genv inst
  refine ⟨fun vf => coord_short inst _ vf (pySubscript_of_lookup h), ?_, ?_, ?_⟩
  all_goals rw [hg]; simp [jpath, _create_response, Json.lookup_obj, jassoc]

theorem c3_witness :
    ((generate_temporal_code genvFailW "make x").lookup "status" = some (Json.str "failed")) ∧
    code_generation_workflow "make x"
        (.ok (generate_temporal_code genvFailW "make x"))
        (fun _ _ => Except.ok Json.null) =
      .ok (generate_temporal_code genvFailW "make x") ∧
    jpath (generate_temporal_code genvFailW "make x")
      ["data", "verification_status"] = none :=
  ⟨rfl, (c3_short_circuit genvFailW "make x" rfl).1 _,
    (c3_short_circuit genvFailW "make x" rfl).2.1⟩

theorem merged_keys (p : String) (act wf vr : Json) :
    (mergedEnvelope p act wf vr).hasKey "status" = true ∧
    (mergedEnvelope p act wf vr).hasKey "message" = true ∧
    (mergedEnvelope p act wf vr).hasKey "data" = true ∧
    (mergedEnvelope p act wf vr).hasKey "error" = true ∧
    (mergedEnvelope p act wf vr).hasKey "error_details" = true :=
  ⟨rfl, rfl, rfl, rfl, rfl⟩

theorem merged_status (p : String) (act wf vr : Json) :
    (mergedEnvelope p act wf vr).lookup "status" =
      some (Json.str (if (mergeData vr "is_valid" (Json.bool false)).truthy
        then "success" else "warning")) := rfl

theorem merged_error (p : String) (act wf vr : Json) :
    (mergedEnvelope p act wf vr).lookup "error" =
      some (if (mergeData vr "is_valid" (Json.bool false)).truthy
        then Json.null else Json.str "Code has issues") := rfl

theorem cr_keys (st : String) (err : Option String) (fg : List (String × String))
    (inst : String) (msg : Option String) (det : Json) :
    (_create_response st err fg inst msg det).hasKey "status" = true ∧
    (_create_response st err fg inst msg det).hasKey "message" = true ∧
    (_create_response st err fg inst msg det).hasKey "data" = true ∧
    (_create_response st err fg inst msg det).hasKey "error" = true :=
  ⟨rfl, rfl, rfl, rfl⟩

/-- C1 (counterexample): the claim says every envelope returned by the
coordinator has all five top-level keys.  For an instruction on which the
gateway raises, the coordinator returns the Generation Stage result
unchanged, and that dict has no `error_details` key. -/
theorem c1_counterexample :
    ∃ j, run_pipeline ⟨Except.ok "", Except.ok "tmpl", Except.error "gateway down",
        ⟨none, none, none⟩⟩ ⟨Except.ok "", fun _ => Except.ok (Json.obj [])⟩ "" =
      Except.ok j ∧ j.hasKey "error_details" = false :=
  ⟨_, rfl, rfl⟩

/-- C1 (amended): every run returns, without raising, an envelope whose four
keys status, message, error, data are present and whose status is one of
success, warning, failed; the fifth key error_details is present exactly when
the run does not short-circuit on a failed Generation Stage result (the
short-circuit returns the stage result, which lacks error_details). -/
theorem c1_envelope_amended (genv : GenEnv) (venv : VerifEnv) (inst : String) :
    ∃ j, run_pipeline genv venv inst = Except.ok j ∧
      j.hasKey "status" = true ∧ j.hasKey "message" = true ∧
      j.hasKey "error" = true ∧ j.hasKey "data" = true ∧
      (j.lookup "status" = some (Json.str "failed") ∨
       j.lookup "status" = some (Json.str "success") ∨
       j.lookup "status" = some (Json.str "warning")) ∧
      (j.hasKey "error_details" = true ↔
        (generate_temporal_code genv inst).lookup "status" = some (Json.str "success")) := by
  obtain ⟨st, err, fg, msg, det, hg, hst⟩ := gen_eq_create genv inst
  rcases hst with hst | hst
  · subst hst
    have h : (generate_temporal_code genv inst).lookup "status" = some (Json.str "failed") := by
      rw [hg]; exact cr_lookup_status _ _ _ _ _ _
    refine ⟨_, pipeline_short_circuit genv venv inst h, ?_, ?_, ?_, ?_, Or.inl h, ?_⟩
    · rw [hg]; exact (cr_keys _ _ _ _ _ _).1
    · rw [hg]; exact (cr_keys _ _ _ _ _ _).2.1
    · rw [hg]; exact (cr_keys _ _ _ _ _ _).2.2.2
    · rw [hg]; exact (cr_keys _ _ _ _ _ _).2.2.1
    · rw [hg, cr_hasKey_error_details, cr_lookup_status]
      simp
  · subst hst
    have h : (generate_temporal_code genv inst).lookup "status" = some (Json.str "success") := by
      rw [hg]; exact cr_lookup_status _ _ _ _ _ _
    obtain ⟨a, w, ha, hw, hrun⟩ := pipeline_merge genv venv inst h
    refine ⟨_, hrun, (merged_keys _ _ _ _).1, (merged_keys _ _ _ _).2.1,
      (merged_keys _ _ _ _).2.2.2.1, (merged_keys _ _ _ _).2.2.1, ?_, ?_⟩
    · rw [merged_status]
      rcases hiv : (mergeData (verify_workflow_code venv a w) "is_valid" (Json.bool false)).truthy
      · exact Or.inr (Or.inr (by simp [hiv]))
      · exact Or.inr (Or.inl (by simp [hiv]))
    · simp [(merged_keys inst (Json.str a) (Json.str w) _).2.2.2.2, h]

/-- C6: once the Verification Stage is reached (Generation Stage reported
success), the merged envelope has status success exactly when the verdict's
is_valid field is truthy and status warning otherwise, is never failed, and
error is null exactly on success. -/
theorem c6_merge_status (genv : GenEnv) (venv : VerifEnv) (inst : String)
    (h : (generate_temporal_code genv inst).lookup "status" = some (Json.str "success")) :
    ∃ j a w, run_pipeline genv venv inst = Except.ok j ∧
      j.lookup "status" = some (Json.str
        (if ((jpath (verify_workflow_code venv a w) ["data", "is_valid"]).getD Json.null).truthy
         then "success" else "warning")) ∧
      j.lookup "status" ≠ some (Json.str "failed") ∧
      (j.lookup "error" = some Json.null ↔ j.lookup "status" = some (Json.str "success")) := by
  obtain ⟨a, w, ha, hw, hrun⟩ := pipeline_merge genv venv inst h
  obtain ⟨vst, vmsg, vd, verr, ved, hv, iv, hiv⟩ := verify_shape venv a w
  have hsame : (jpath (verify_workflow_code venv a w) ["data", "is_valid"]).getD Json.null =
      mergeData (verify_workflow_code venv a w) "is_valid" (Json.bool false) := by
    rw [hv]
    simp [jpath, mergeData, Json.lookup_obj, jassoc, hiv]
  refine ⟨_, a, w, hrun, ?_, ?_, ?_⟩
  · rw [merged_status, hsame]
  · rw [merged_status]
    rcases hivt : (mergeData (verify_workflow_code venv a w) "is_valid" (Json.bool false)).truthy <;>
      simp [hivt]
  · rw [merged_status, merged_error]
    rcases hivt : (mergeData (verify_workflow_code venv a w) "is_valid" (Json.bool false)).truthy <;>
      simp [hivt]

theorem c6_witness :
    ((generate_temporal_code genvOkW "make wf").lookup "status" = some (Json.str "success")) ∧
    (∃ j a w, run_pipeline genvOkW venvOkW "make wf" = Except.ok j ∧
      j.lookup "status" = some (Json.str
        (if ((jpath (verify_workflow_code venvOkW a w) ["data", "is_valid"]).getD Json.null).truthy
         then "success" else "warning")) ∧
      j.lookup "status" ≠ some (Json.str "failed") ∧
      (j.lookup "error" = some Json.null ↔ j.lookup "status" = some (Json.str "success"))) :=
  ⟨rfl, c6_merge_status genvOkW venvOkW "make wf" rfl⟩

/-- C7 (counterexample): the coordinator has no catch-all: a generation stage
that raises propagates its exception to the caller instead of being turned
into a failed envelope. -/
theorem c7_counterexample :
    code_generation_workflow "p" (Except.error "boom") (fun _ _ => Except.ok Json.null) =
      Except.error "boom" := rfl

/-- C7 (amended): `code_generation_workflow` contains no try/except: a raising
stage propagates unchanged, and a malformed (non-dict) generation result makes
the coordinator's own subscript raise; only because the repository's actual
stages catch internally does the composed pipeline never raise. -/
theorem c7_no_catch_all (inst : String) :
    (∀ (e : String) (vf : Json → Json → Except String Json),
       code_generation_workflow inst (Except.error e) vf = Except.error e) ∧
    (∀ (s : String) (vf : Json → Json → Except String Json),
       code_generation_workflow inst (Except.ok (Json.str s)) vf =
         Except.error "TypeError: object is not subscriptable") ∧
    (∀ (genv : GenEnv) (venv : VerifEnv), ∃ j, run_pipeline genv venv inst = Except.ok j) := by
  refine ⟨fun e vf => rfl, fun s vf => rfl, fun genv venv => ?_⟩
  obtain ⟨st, err, fg, msg, det, hg, hst⟩ := gen_eq_create genv inst
  rcases hst with hst | hst
  · subst hst
    exact ⟨_, pipeline_short_circuit genv venv inst
      (by rw [hg]; exact cr_lookup_status _ _ _ _ _ _)⟩
  · subst hst
    obtain ⟨a, w, _, _, hrun⟩ := pipeline_merge genv venv inst
      (by rw [hg]; exact cr_lookup_status _ _ _ _ _ _)
    exact ⟨_, hrun⟩

theorem coord_no_empty {dfields : List (String × Json)} (p : String) (g : Json)
    (vf : Json → Json → Except String Json) (a w : String)
    (ha : a ≠ "") (hw : w ≠ "")
    (hsub : pySubscript g "status" = .ok (Json.str "success"))
    (hdata : g.lookup "data" = some (Json.obj dfields))
    (hgf : jassoc dfields "generated_files" =
      some (Json.obj [("activities.py", Json.str a), ("workflow.py", Json.str w)])) :
    code_generation_workflow p (.ok g) vf ≠ .ok emptyFilesEnvelope := by
  have h1 : pyGet g "data" (Json.obj []) = .ok (Json.obj dfields) := pyGet_of_lookup _ hdata
  have h2 : pyGet (Json.obj dfields) "generated_files" (Json.obj []) =
      .ok (Json.obj [("activities.py", Json.str a), ("workflow.py", Json.str w)]) := by
    simp [pyGet, hgf]
  have ta : (Json.str a).truthy = true := by simp [Json.truthy, ha]
  have tw : (Json.str w).truthy = true := by simp [Json.truthy, hw]
  simp only [code_generation_workflow, bind, Except.bind, pure, Except.pure, hsub, isFailedStr,
    h1, h2, pyGet_obj, jassoc, ta, tw]
  rcases hvf : vf (Json.str a) (Json.str w) with e | vr
  · simp [hvf, ta, tw]
  · rcases vr with _ | b | s | l | vfs
    · simp [hvf, ta, tw, pyGet]
    · simp [hvf, ta, tw, pyGet]
    · simp [hvf, ta, tw, pyGet]
    · simp [hvf, ta, tw, pyGet]
    · rcases hvd : (jassoc vfs "data").getD (Json.obj []) with _ | b | s | l | fsd
      · simp [hvf, ta, tw, pyGet, hvd]
      · simp [hvf, ta, tw, pyGet, hvd]
      · simp [hvf, ta, tw, pyGet, hvd]
      · simp [hvf, ta, tw, pyGet, hvd]
      · rcases hivt : ((jassoc fsd "is_valid").getD (Json.bool false)).truthy <;>
          simp [hvf, ta, tw, pyGet, hvd, hivt, emptyFilesEnvelope]

/-- C10: whenever the Generation Stage reports success, its data carries both
artifact keys with non-empty string contents, and therefore the coordinator's
defensive empty-artifact guard can never fire on a result actually produced
by the Generation Stage, whatever the verification stage does. -/
theorem c10_success_nonempty (genv : GenEnv) (inst : String)
    (h : (generate_temporal_code genv inst).lookup "status" = some (Json.str "success")) :
    ∃ a w, a ≠ "" ∧ w ≠ "" ∧
      jpath (generate_temporal_code genv inst) ["data", "generated_files", "activities.py"] =
        some (Json.str a) ∧
      jpath (generate_temporal_code genv inst) ["data", "generated_files", "workflow.py"] =
        some (Json.str w) ∧
      ∀ vf : Json → Json → Except String Json,
        code_generation_workflow inst (Except.ok (generate_temporal_code genv inst)) vf ≠
          Except.ok emptyFilesEnvelope := by
  obtain ⟨a, w, det, ha, hw, hdata⟩ := gen_success_shape genv inst h
  refine ⟨a, w, ha, hw, ?_, ?_, fun vf =>
    coord_no_empty inst _ vf a w ha hw (pySubscript_of_lookup h) hdata (by simp [jassoc])⟩
  · simp [jpath, hdata, Json.lookup_obj, jassoc]
  · simp [jpath, hdata, Json.lookup_obj, jassoc]

theorem c10_witness :
    ((generate_temporal_code genvOkW "make wf").lookup "status" = some (Json.str "success")) ∧
    (∃ a w, a ≠ "" ∧ w ≠ "" ∧
      jpath (generate_temporal_code genvOkW "make wf")
        ["data", "generated_files", "activities.py"] = some (Json.str a) ∧
      jpath (generate_temporal_code genvOkW "make wf")
        ["data", "generated_files", "workflow.py"] = some (Json.str w) ∧
      ∀ vf : Json → Json → Except String Json,
        code_generation_workflow "make wf"
            (Except.ok (generate_temporal_code genvOkW "make wf")) vf ≠
          Except.ok emptyFilesEnvelope) :=
  ⟨rfl, c10_success_nonempty genvOkW "make wf" rfl⟩

/-- C5: when the prompt builds and the gateway succeeds but extraction yields
at least one empty artifact, the Generation Stage result is failed, its
data.details.stage tag is code_parsing (the result has no error_details key),
and it carries a hint describing the kind of instruction expected, although
no exception occurred. -/
theorem c5_empty_artifact (genv : GenEnv) (inst tmpl out : String)
    (hp : genv.promptRes = Except.ok tmpl)
    (hl : genv.llmRes = Except.ok out)
    (he : (parse_generated_code out.toList).1.asString = "" ∨
          (parse_generated_code out.toList).2.asString = "") :
    (generate_temporal_code genv inst).lookup "status" = some (Json.str "failed") ∧
    jpath (generate_temporal_code genv inst) ["data", "details", "stage"] =
      some (Json.str "code_parsing") ∧
    jpath (generate_temporal_code genv inst) ["data", "details", "reason"] =
      some (Json.str "Generated code was empty. Hint: Use prompts like \x27Create a workflow that processes payments with retry logic\x27 instead of \x27Download an app\x27.") := by
  obtain ⟨t, p, l, s⟩ := genv
  simp only at hp hl
  subst hp hl
  simp only [generate_temporal_code]
  rw [if_pos he]
  refine ⟨cr_lookup_status _ _ _ _ _ _, ?_, ?_⟩ <;>
    simp [jpath, _create_response, Json.lookup_obj, jassoc, Json.truthy]

theorem c5_witness :
    ((⟨Except.ok "", Except.ok "tmpl", Except.ok "no markers here",
        ⟨none, none, none⟩⟩ : GenEnv).promptRes = Except.ok "tmpl") ∧
    ((generate_temporal_code
        ⟨Except.ok "", Except.ok "tmpl", Except.ok "no markers here", ⟨none, none, none⟩⟩
        "download an app").lookup "status" = some (Json.str "failed")) ∧
    jpath (generate_temporal_code
        ⟨Except.ok "", Except.ok "tmpl", Except.ok "no markers here", ⟨none, none, none⟩⟩
        "download an app") ["data", "details", "stage"] = some (Json.str "code_parsing") :=
  ⟨rfl, (c5_empty_artifact _ "download an app" "tmpl" "no markers here" rfl rfl
      (Or.inl rfl)).1,
    (c5_empty_artifact _ "download an app" "tmpl" "no markers here" rfl rfl
      (Or.inl rfl)).2.1⟩

theorem verify_eq_error (venv : VerifEnv) (a w e : String)
    (hrv : verifRawVerdict venv = Except.error e) :
    verify_workflow_code venv a w = verifExceptResult e := by
  simp [verify_workflow_code, hrv, bind, Except.bind]

theorem verify_eq_obj (venv : VerifEnv) (a w : String) (fs : List (String × Json))
    (hrv : verifRawVerdict venv = Except.ok (Json.obj fs)) :
    verify_workflow_code venv a w = verifParsedResult fs := by
  simp [verify_workflow_code, hrv, bind, Except.bind, pure, Except.pure, pyGet_obj, verifParsedResult]

/-- C9: when the gateway reply does not parse as structured JSON, the
Verification Stage does not raise: it returns a failed result whose verdict
has is_valid false and exactly one synthetic error describing the failure. -/
theorem c9_parse_failure (venv : VerifEnv) (a w resp e : String)
    (hl : venv.llmRes = Except.ok resp)
    (hp : venv.jsonParse (stripVerifFences resp) = Except.error e) :
    (verify_workflow_code venv a w).lookup "status" = some (Json.str "failed") ∧
    jpath (verify_workflow_code venv a w) ["data", "is_valid"] = some (Json.bool false) ∧
    jpath (verify_workflow_code venv a w) ["data", "errors"] =
      some (Json.arr [Json.str ("Verification error: " ++ e)]) := by
  have hrv : verifRawVerdict venv = Except.error e := by
    simp [verifRawVerdict, hl, hp, bind, Except.bind]
  rw [verify_eq_error venv a w e hrv]
  exact ⟨rfl, rfl, rfl⟩

theorem c9_witness :
    ((⟨Except.ok "not json", fun _ => Except.error "Expecting value"⟩ : VerifEnv).llmRes =
      Except.ok "not json") ∧
    ((verify_workflow_code ⟨Except.ok "not json", fun _ => Except.error "Expecting value"⟩
        "a" "w").lookup "status" = some (Json.str "failed")) ∧
    jpath (verify_workflow_code ⟨Except.ok "not json", fun _ => Except.error "Expecting value"⟩
        "a" "w") ["data", "errors"] =
      some (Json.arr [Json.str "Verification error: Expecting value"]) :=
  ⟨rfl,
    (c9_parse_failure _ "a" "w" "not json" "Expecting value" rfl rfl).1,
    (c9_parse_failure _ "a" "w" "not json" "Expecting value" rfl rfl).2.2⟩

/-- C2 (counterexample): the verdict-consistency invariant fails on the code:
when the upstream reply reports is_valid true together with a non-empty
errors list, the stage and the coordinator's merge both pass the inconsistent
flag through, yielding a success envelope carrying non-empty errors. -/
theorem c2_counterexample :
    jpath (verify_workflow_code venvInconsW "a" "w") ["data", "errors"] =
        some (Json.arr [Json.str "e1"]) ∧
    jpath (verify_workflow_code venvInconsW "a" "w") ["data", "is_valid"] =
        some (Json.bool true) ∧
    ∃ j, run_pipeline genvOkW venvInconsW "make wf" = Except.ok j ∧
      j.lookup "status" = some (Json.str "success") ∧
      jpath j ["data", "errors"] = some (Json.arr [Json.str "e1"]) :=
  ⟨rfl, rfl, _, rfl, rfl, rfl⟩

/-- C2 (amended): `verify_workflow_code` passes the upstream is_valid flag
through without re-deriving it from errors; the invariant "errors non-empty
implies is_valid false" holds for every verdict the stage produces provided
the upstream parsed reply itself satisfies it, and unconditionally on the
parse-failure path. -/
theorem c2_verdict_consistency_amended (venv : VerifEnv) (a w : String)
    (hcons : ∀ v : Json, verifRawVerdict venv = Except.ok v →
      ((v.lookup "errors").getD (Json.arr [])).truthy = true →
      ((v.lookup "is_valid").getD (Json.bool true)).truthy = false) :
    ((jpath (verify_workflow_code venv a w) ["data", "errors"]).getD (Json.arr [])).truthy = true →
    ((jpath (verify_workflow_code venv a w) ["data", "is_valid"]).getD Json.null).truthy = false := by
  rcases hrv : verifRawVerdict venv with e | v
  · rw [verify_eq_error venv a w e hrv]
    intro _
    rfl
  · rcases v with _ | b | s | l | fs
    · intro _
      simp only [verify_workflow_code, hrv]
      rfl
    · intro _
      simp only [verify_workflow_code, hrv]
      rfl
    · intro _
      simp only [verify_workflow_code, hrv]
      rfl
    · intro _
      simp only [verify_workflow_code, hrv]
      rfl
    · rw [verify_eq_obj venv a w fs hrv]
      intro h
      have := hcons (Json.obj fs) hrv
      simp only [verifParsedResult, jpath, Json.lookup_obj, jassoc] at h ⊢
      simp only [Json.lookup_obj] at this
      simp at h ⊢
      exact this h

theorem c2_witness :
    (∀ v : Json, verifRawVerdict venvOkW = Except.ok v →
      ((v.lookup "errors").getD (Json.arr [])).truthy = true →
      ((v.lookup "is_valid").getD (Json.bool true)).truthy = false) ∧
    (((jpath (verify_workflow_code venvOkW "a" "w") ["data", "errors"]).getD
        (Json.arr [])).truthy = true →
     ((jpath (verify_workflow_code venvOkW "a" "w") ["data", "is_valid"]).getD
        Json.null).truthy = false) := by
  have hcons : ∀ v : Json, verifRawVerdict venvOkW = Except.ok v →
      ((v.lookup "errors").getD (Json.arr [])).truthy = true →
      ((v.lookup "is_valid").getD (Json.bool true)).truthy = false := by
    intro v h htr
    rw [show verifRawVerdict venvOkW = Except.ok (Json.obj
      [("has_errors", Json.bool false), ("errors", Json.arr []), ("warnings", Json.arr []),
       ("is_valid", Json.bool true), ("summary", Json.str "ok")]) from rfl] at h
    cases h
    exact absurd htr (by decide)
  exact ⟨hcons, c2_verdict_consistency_amended venvOkW "a" "w" hcons⟩

/-- C8 (counterexample): on a partial save (activities written, workflow write
raises) the Generation Stage result's message is the same unqualified fixed
success message as in a fully successful run, so the stage message does not
reflect the partial completion. -/
theorem c8_counterexample :
    (generate_temporal_code genvPartialW "make wf").lookup "status" =
        some (Json.str "success") ∧
    (generate_temporal_code genvPartialW "make wf").lookup "message" =
        some (Json.str "Workflow generated successfully") ∧
    (generate_temporal_code genvPartialW "make wf").lookup "message" =
        (generate_temporal_code genvOkW "make wf").lookup "message" :=
  ⟨rfl, rfl, rfl⟩

/-- C8 (amended): partial persistence (exactly one of the two files saved)
still reports overall stage status success; the partial completion is
reflected in the save step's own message ("Saved 1 files") and in the number
of saved paths, while the stage-level message stays the fixed success
message. -/
theorem c8_partial_save_amended (genv : GenEnv) (inst tmpl out : String)
    (hp : genv.promptRes = Except.ok tmpl)
    (hl : genv.llmRes = Except.ok out)
    (hne1 : (parse_generated_code out.toList).1.asString ≠ "")
    (hne2 : (parse_generated_code out.toList).2.asString ≠ "")
    (hsetup : genv.saveEnv.setupErr = none)
    (hpart : (genv.saveEnv.actErr = none ∧ genv.saveEnv.wfErr ≠ none) ∨
                (genv.saveEnv.actErr ≠ none ∧ genv.saveEnv.wfErr = none)) :
    (save_generated_files genv.saveEnv).success = true ∧
    (save_generated_files genv.saveEnv).message = "Saved 1 files" ∧
    (save_generated_files genv.saveEnv).files_saved.length = 1 ∧
    (generate_temporal_code genv inst).lookup "status" = some (Json.str "success") ∧
    (generate_temporal_code genv inst).lookup "message" =
      some (Json.str "Workflow generated successfully") := by
  obtain ⟨t, p, l, s⟩ := genv
  obtain ⟨se, ae, we⟩ := s
  simp only at hp hl hsetup hpart
  subst hp hl hsetup
  have hsave : save_generated_files ⟨none, ae, we⟩ =
      { success := true, files_saved := [if ae = none then activitiesPath else workflowPath],
        message := "Saved 1 files" } := by
    rcases hpart with ⟨h1, h2⟩ | ⟨h1, h2⟩
    · subst h1
      rcases hwe : we with _ | x
      · exact absurd hwe h2
      · simp [save_generated_files]
        rfl
    · subst h2
      rcases hae : ae with _ | x
      · exact absurd hae h1
      · simp [save_generated_files, hae]
        rfl
  refine ⟨by rw [hsave], by rw [hsave], by rw [hsave]; rfl, ?_, ?_⟩ <;>
  · simp only [generate_temporal_code]
    rw [if_neg (by push_neg; exact ⟨hne1, hne2⟩), if_pos (by rw [hsave])]
    simp [_create_response, Json.lookup_obj, jassoc, jsonOfStrOpt]

theorem c8_witness :
    ((parse_generated_code llmGoodOut.toList).1.asString ≠ "") ∧
    ((save_generated_files genvPartialW.saveEnv).success = true ∧
     (save_generated_files genvPartialW.saveEnv).message = "Saved 1 files" ∧
     (save_generated_files genvPartialW.saveEnv).files_saved.length = 1 ∧
     (generate_temporal_code genvPartialW "make wf").lookup "status" =
       some (Json.str "success") ∧
     (generate_temporal_code genvPartialW "make wf").lookup "message" =
       some (Json.str "Workflow generated successfully")) :=
  ⟨by decide,
    c8_partial_save_amended genvPartialW "make wf" "tmpl" llmGoodOut rfl rfl
      (by decide) (by decide) rfl (Or.inl ⟨rfl, by decide⟩)⟩

theorem containsSub_nil_pat (x : List Char) : containsSub x [] = true := by
  cases x <;> simp [containsSub, findSub]

theorem findSub_self_head {hay pat : List Char} (h : pat <+: hay) :
    findSub hay pat = some 0 := by
  cases hay
  · simp only [List.prefix_nil] at h
    subst h
    simp [findSub]
  · simp [findSub, List.isPrefixOf_iff_prefix, h]

theorem findSub_eq_some_of {hay pat : List Char} (n : Nat)
    (h1 : pat <+: hay.drop n) (h2 : ∀ i < n, ¬ pat <+: hay.drop i) :
    findSub hay pat = some n := by
  induction hay generalizing n with
  | nil =>
    simp only [List.drop_nil, List.prefix_nil] at h1
    subst h1
    rcases n with _ | m
    · simp [findSub]
    · exact (h2 0 (Nat.succ_pos m) (by simp)).elim
  | cons c t ih =>
    by_cases hp : pat <+: (c :: t)
    · rcases n with _ | m
      · simp [findSub, List.isPrefixOf_iff_prefix, hp]
      · exact absurd hp (by simpa using h2 0 (Nat.succ_pos m))
    · rcases n with _ | m
      · exact absurd h1 hp
      · have hrec := ih m (by simpa using h1)
          (fun i hi => by simpa using h2 (i + 1) (by omega))
      
        simp [findSub, List.isPrefixOf_iff_prefix, hp, hrec]

theorem not_prefix_drop_of_not_contains {hay pat : List Char}
    (h : containsSub hay pat = false) : ∀ i, ¬ pat <+: hay.drop i := by
  induction hay with
  | nil =>
    intro i hp
    simp only [List.drop_nil, List.prefix_nil] at hp
    subst hp
    simp [containsSub_nil_pat] at h
  | cons c t ih =>
    have h0 : ¬ pat <+: (c :: t) := by
      intro hc
      simp [containsSub, findSub, List.isPrefixOf_iff_prefix, hc] at h
    have h1 : containsSub t pat = false := by
      by_cases hc : pat <+: (c :: t)
      · exact absurd hc h0
      · simpa [containsSub, findSub, List.isPrefixOf_iff_prefix, hc] using h
    intro i hp
    rcases i with _ | j
    · exact h0 (by simpa using hp)
    · exact ih h1 j (by simpa using hp)

theorem prefix_take_drop {X pat : List Char} {i n : Nat}
    (h : pat <+: X.drop i) (hle : i + pat.length ≤ n) :
    pat <+: (X.take n).drop i := by
  rw [List.drop_take]
  rw [List.prefix_iff_eq_take] at h ⊢
  rw [List.take_take, Nat.min_eq_left (by omega)]
  exact h

theorem findSub_append_self (pre pat rest : List Char)
    (h : containsSub ((pre ++ pat).dropLast) pat = false) :
    findSub (pre ++ (pat ++ rest)) pat = some pre.length := by
  have hne : pat ≠ [] := by
    intro hp
    rw [hp] at h
    simp [containsSub_nil_pat] at h
  have hlen : 1 ≤ pat.length := List.length_pos.mpr hne
  apply findSub_eq_some_of
  · rw [List.drop_left]
    exact List.prefix_append pat rest
  · intro i hi hp
    have hocc : pat <+: ((pre ++ (pat ++ rest)).take (pre.length + pat.length - 1)).drop i :=
      prefix_take_drop hp (by omega)
    have htake : (pre ++ (pat ++ rest)).take (pre.length + pat.length - 1) =
        (pre ++ pat).dropLast := by
      rw [List.dropLast_eq_take, List.length_append, ← List.append_assoc,
        List.take_append_of_le_length (by rw [List.length_append]; omega)]
    rw [htake] at hocc
    exact not_prefix_drop_of_not_contains h i hocc

theorem sliceList_append (x y z : List Char) :
    sliceList (x ++ (y ++ z)) x.length (x.length + y.length) = y := by
  unfold sliceList
  rw [← List.append_assoc,
    show x.length + y.length = (x ++ y).length from (List.length_append x y).symm,
    List.take_left, List.drop_left]

theorem replaceGo_of_head_notMem (c : Char) (tl new : List Char) :
    ∀ (fuel : Nat) (s : List Char), c ∉ s → replaceGo (c :: tl) new fuel s = s := by
  intro fuel
  induction fuel with
  | zero => intro s _; cases s <;> rfl
  | succ f ih =>
    intro s hmem
    cases s with
    | nil => rfl
    | cons d t =>
      have hnp : ¬((c :: tl).isPrefixOf (d :: t) = true ∧ (c :: tl) ≠ []) := by
        rintro ⟨hp, -⟩
        simp only [List.isPrefixOf, Bool.and_eq_true, beq_iff_eq] at hp
        exact hmem (hp.1 ▸ List.mem_cons_self c t)
      simp only [replaceGo, if_neg hnp]
      rw [ih t (fun hc => hmem (List.mem_cons_of_mem d hc))]

theorem pyReplace_of_head_notMem (c : Char) (tl new s : List Char) (h : c ∉ s) :
    pyReplace (c :: tl) new s = s :=
  replaceGo_of_head_notMem c tl new s.length s h

theorem cleanArtifact_of_no_backtick {l : List Char} (hmem : backtick ∉ l)
    (hs : pyStrip l = l) : cleanArtifact l = l := by
  unfold cleanArtifact
  have h1 : pyReplace fencePy [] l = l := by
    rw [show fencePy = backtick :: "``python".toList from rfl]
    exact pyReplace_of_head_notMem _ _ _ _ hmem
  have h2 : pyReplace fenceTicks [] l = l := by
    rw [show fenceTicks = backtick :: "``".toList from rfl]
    exact pyReplace_of_head_notMem _ _ _ _ hmem
  rw [h1, h2, hs]

/-- C4 (amended): for canonical text containing both marker pairs enclosing
`A` and `W` (the markers occurring nowhere earlier), extraction returns the
two contents stripped and with fenced-code delimiters removed; this is
exactly `(A, W)` when the contents are stripped and backtick-free; a text
missing the activities pair yields an empty activities slot with the
workflow slot unchanged. -/
theorem c4_marker_roundtrip_amended (A W : List Char)
    (hA : containsSub ((actStartM ++ A ++ actEndM).dropLast) actEndM = false)
    (hWs : containsSub ((actStartM ++ A ++ actEndM ++ wfStartM).dropLast) wfStartM = false)
    (hWe : containsSub ((mkMarked A W).dropLast) wfEndM = false)
    (hY : containsSub ((wfStartM ++ W ++ wfEndM).dropLast) wfEndM = false)
    (hN : containsSub (wfStartM ++ W ++ wfEndM) actStartM = false) :
    parse_generated_code (mkMarked A W) =
      (cleanArtifact (pyStrip A), cleanArtifact (pyStrip W)) ∧
    (backtick ∉ A → pyStrip A = A → (parse_generated_code (mkMarked A W)).1 = A) ∧
    (backtick ∉ W → pyStrip W = W → (parse_generated_code (mkMarked A W)).2 = W) ∧
    parse_generated_code (wfStartM ++ W ++ wfEndM) =
      ([], (parse_generated_code (mkMarked A W)).2) := by
  have hWe' : containsSub (((actStartM ++ A ++ actEndM ++ wfStartM ++ W) ++
      wfEndM).dropLast) wfEndM = false := hWe
  have hf1 : findSub (mkMarked A W) actStartM = some 0 := by
    apply findSub_self_head
    rw [show mkMarked A W =
      actStartM ++ (A ++ (actEndM ++ (wfStartM ++ (W ++ wfEndM)))) from by
        simp [mkMarked, List.append_assoc]]
    exact List.prefix_append _ _
  have hf2 : findSub (mkMarked A W) actEndM = some (actStartM.length + A.length) := by
    have h := findSub_append_self (actStartM ++ A) actEndM (wfStartM ++ (W ++ wfEndM)) hA
    simpa [mkMarked, List.append_assoc, Nat.add_assoc] using h
  have hf3 : findSub (mkMarked A W) wfStartM =
      some (actStartM.length + (A.length + actEndM.length)) := by
    have h := findSub_append_self (actStartM ++ A ++ actEndM) wfStartM (W ++ wfEndM) hWs
    simpa [mkMarked, List.append_assoc, Nat.add_assoc] using h
  have hf4 : findSub (mkMarked A W) wfEndM =
      some (actStartM.length + (A.length + (actEndM.length +
        (wfStartM.length + W.length)))) := by
    have h := findSub_append_self (actStartM ++ A ++ actEndM ++ wfStartM ++ W)
      wfEndM [] hWe'
    simpa [mkMarked, List.append_assoc, Nat.add_assoc] using h
  have hs1 : sliceList (mkMarked A W) actStartM.length (actStartM.length + A.length) = A := by
    have h := sliceList_append actStartM A (actEndM ++ (wfStartM ++ (W ++ wfEndM)))
    rw [show mkMarked A W =
      actStartM ++ (A ++ (actEndM ++ (wfStartM ++ (W ++ wfEndM)))) from by
        simp [mkMarked, List.append_assoc]]
    exact h
  have hs2 : sliceList (mkMarked A W)
      (actStartM.length + (A.length + (actEndM.length + wfStartM.length)))
      (actStartM.length + (A.length + (actEndM.length +
        (wfStartM.length + W.length)))) = W := by
    have h := sliceList_append (actStartM ++ A ++ actEndM ++ wfStartM) W wfEndM
    simpa [mkMarked, List.append_assoc, Nat.add_assoc] using h
  have e1 : extractPair (mkMarked A W) actStartM actEndM = pyStrip A := by
    unfold extractPair
    rw [hf1, hf2]
    simp only [Nat.zero_add]
    rw [hs1]
  have e2 : extractPair (mkMarked A W) wfStartM wfEndM = pyStrip W := by
    unfold extractPair
    rw [hf3, hf4]
    simp only [Nat.add_assoc]
    rw [hs2]
  have hc1 : parse_generated_code (mkMarked A W) =
      (cleanArtifact (pyStrip A), cleanArtifact (pyStrip W)) := by
    unfold parse_generated_code
    rw [e1, e2]
  have hfn : findSub (wfStartM ++ W ++ wfEndM) actStartM = none := by
    rcases hcase : findSub (wfStartM ++ W ++ wfEndM) actStartM with _ | v
    · rfl
    · unfold containsSub at hN
      rw [hcase] at hN
      simp at hN
  have hg1 : findSub (wfStartM ++ W ++ wfEndM) wfStartM = some 0 := by
    apply findSub_self_head
    rw [List.append_assoc]
    exact List.prefix_append _ _
  have hg2 : findSub (wfStartM ++ W ++ wfEndM) wfEndM =
      some (wfStartM.length + W.length) := by
    have h := findSub_append_self (wfStartM ++ W) wfEndM [] hY
    simpa [List.append_assoc, Nat.add_assoc] using h
  have e3 : extractPair (wfStartM ++ W ++ wfEndM) wfStartM wfEndM = pyStrip W := by
    unfold extractPair
    rw [hg1, hg2]
    simp only [Nat.zero_add]
    have h := sliceList_append wfStartM W wfEndM
    rw [show wfStartM ++ W ++ wfEndM = wfStartM ++ (W ++ wfEndM) from
      List.append_assoc _ _ _]
    rw [h]
  have e4 : extractPair (wfStartM ++ W ++ wfEndM) actStartM actEndM = [] := by
    unfold extractPair
    rw [hfn]
  refine ⟨hc1, ?_, ?_, ?_⟩
  · intro hmem hstr
    rw [hc1, hstr]
    exact cleanArtifact_of_no_backtick hmem hstr
  · intro hmem hstr
    rw [hc1, hstr]
    exact cleanArtifact_of_no_backtick hmem hstr
  · rw [hc1]
    unfold parse_generated_code
    rw [e3, e4]
    rfl

/-- C4 (counterexample): for text containing both marker pairs with activities
content "a```b" and workflow content "w", extraction does not return
(A.strip(), W.strip()): the fenced-code delimiter inside the content is
deleted, yielding "ab". -/
theorem c4_counterexample :
    parse_generated_code (mkMarked ("a```b".toList) ("w".toList)) =
      ("ab".toList, "w".toList) ∧
    parse_generated_code (mkMarked ("a```b".toList) ("w".toList)) ≠
      (pyStrip ("a```b".toList), pyStrip ("w".toList)) := by
  constructor
  · decide
  · decide

theorem c4_witness :
    (containsSub ((actStartM ++ "alpha".toList ++ actEndM).dropLast) actEndM = false) ∧
    (parse_generated_code (mkMarked ("alpha".toList) ("wf".toList)) =
      (cleanArtifact (pyStrip ("alpha".toList)), cleanArtifact (pyStrip ("wf".toList))) ∧
    (backtick ∉ ("alpha".toList) → pyStrip ("alpha".toList) = "alpha".toList →
      (parse_generated_code (mkMarked ("alpha".toList) ("wf".toList))).1 = "alpha".toList) ∧
    (backtick ∉ ("wf".toList) → pyStrip ("wf".toList) = "wf".toList →
      (parse_generated_code (mkMarked ("alpha".toList) ("wf".toList))).2 = "wf".toList) ∧
    parse_generated_code (wfStartM ++ "wf".toList ++ wfEndM) =
      ([], (parse_generated_code (mkMarked ("alpha".toList) ("wf".toList))).2)) :=
  ⟨by decide,
    c4_marker_roundtrip_amended ("alpha".toList) ("wf".toList)
      (by decide) (by decide) (by decide) (by decide) (by decide)⟩

/-- C5 (counterexample): the empty-artifact failure carries its stage tag in
data.details.stage; the Generation Stage result has no error_details key at
all, so "error_details stage equal to code_parsing" fails as stated. -/
theorem c5_counterexample :
    ((generate_temporal_code
        ⟨Except.ok "", Except.ok "tmpl", Except.ok "no markers here", ⟨none, none, none⟩⟩
        "download an app").lookup "status" = some (Json.str "failed")) ∧
    ((generate_temporal_code
        ⟨Except.ok "", Except.ok "tmpl", Except.ok "no markers here", ⟨none, none, none⟩⟩
        "download an app").hasKey "error_details" = false) :=
  ⟨rfl, rfl⟩
